import Mathlib

/-!
# NexusCRM plugin — verification of spec claims

A shallow embedding of the parts of the NexusCRM plugin
(`src/graphql/resolvers.ts`, `src/utils/database.ts`, `src/voice/call-manager.ts`,
`src/voice/webhook-handler.ts`, `src/websocket/manager.ts`) that the spec's
testable properties talk about, together with theorems settling each property.
-/

/- ============================================================
   SQL rows and WHERE-clause conditions for the list resolvers
   (src/graphql/resolvers.ts)
   ============================================================ -/

/-- A relational row restricted to the columns the list resolvers' dynamic
`WHERE` clauses can mention.  Each resolver queries its own table; this type is
the union of the columns those tables' filters touch, with SQL `NULL`
modelled as `Option.none`.  `deletedAt` is the soft-deletion timestamp. -/
structure SqlRow where
  deletedAt : Option Nat
  companyId : Option String
  leadStatus : Option String
  ownerId : Option String
  leadScore : Option Int
  firstName : Option String
  lastName : Option String
  email : Option String
  name : Option String
  domain : Option String
  stage : Option String
  contactId : Option String
  dealId : Option String
  activityType : Option String
  status : Option String
  deriving Repr, DecidableEq

/-- One atomic SQL condition pushed onto a resolver's `conditions` array
(or appended to its query string, for `Query.companies`). -/
inductive Cond where
  | deletedAtIsNull
  | companyIdEq (v : String)
  | leadStatusEq (v : String)
  | ownerIdEq (v : String)
  | leadScoreGe (v : Int)
  | leadScoreLe (v : Int)
  | contactSearchIlike (v : String)
  | nameOrDomainIlike (v : String)
  | stageEq (v : String)
  | contactIdEq (v : String)
  | dealIdEq (v : String)
  | typeEq (v : String)
  | statusEq (v : String)
  deriving Repr, DecidableEq

/-- SQL `col ILIKE '%pat%'`: case-insensitive substring match on a non-NULL
column value (`NULL` never matches). -/
def ilikeSubstr (pat : String) (col : Option String) : Bool :=
  match col with
  | none => false
  | some s => ((s.toLower).splitOn pat.toLower).length != 1

/-- Evaluate one condition against a row (SQL three-valued logic collapsed to
Bool: a NULL comparison is not satisfied). -/
def evalCond (c : Cond) (r : SqlRow) : Bool :=
  match c with
  | .deletedAtIsNull => r.deletedAt.isNone
  | .companyIdEq v => r.companyId == some v
  | .leadStatusEq v => r.leadStatus == some v
  | .ownerIdEq v => r.ownerId == some v
  | .leadScoreGe v => match r.leadScore with | none => false | some s => v ≤ s
  | .leadScoreLe v => match r.leadScore with | none => false | some s => s ≤ v
  | .contactSearchIlike v =>
      ilikeSubstr v r.firstName || ilikeSubstr v r.lastName || ilikeSubstr v r.email
  | .nameOrDomainIlike v => ilikeSubstr v r.name || ilikeSubstr v r.domain
  | .stageEq v => r.stage == some v
  | .contactIdEq v => r.contactId == some v
  | .dealIdEq v => r.dealId == some v
  | .typeEq v => r.activityType == some v
  | .statusEq v => r.status == some v

/-- A row satisfies a conjunction of conditions (the resolvers join their
condition arrays with `AND`). -/
def rowMatches (conds : List Cond) (r : SqlRow) : Bool :=
  conds.all (fun c => evalCond c r)

/-- `ContactFilter` input of `Query.contacts` / `Query.contactsCount`. -/
structure ContactFilter where
  companyId : Option String
  leadStatus : Option String
  ownerId : Option String
  minLeadScore : Option Int
  maxLeadScore : Option Int
  search : Option String
  deriving Repr, DecidableEq

/-- Push `cond` when the optional filter field is present, mirroring the
`if (filter.x) { conditions.push(...) }` pattern of the resolvers. -/
def pushIf {α : Type} (field : Option α) (mk : α → Cond) : List Cond :=
  match field with
  | none => []
  | some v => [mk v]

namespace Query

/-- WHERE-clause conditions built by `Query.contacts`
(src/graphql/resolvers.ts lines 96-162): starts from
`['deleted_at IS NULL']` and pushes one condition per supplied filter field. -/
def contactsConditions (filter : Option ContactFilter) : List Cond :=
  [Cond.deletedAtIsNull] ++
    match filter with
    | none => []
    | some f =>
        pushIf f.companyId Cond.companyIdEq ++
        pushIf f.leadStatus Cond.leadStatusEq ++
        pushIf f.ownerId Cond.ownerIdEq ++
        pushIf f.minLeadScore Cond.leadScoreGe ++
        pushIf f.maxLeadScore Cond.leadScoreLe ++
        pushIf f.search Cond.contactSearchIlike

/-- WHERE-clause conditions built by `Query.companies`: the base query string
carries `WHERE deleted_at IS NULL` and a search term appends an
`AND (name ILIKE $1 OR domain ILIKE $1)` clause. -/
def companiesConditions (search : Option String) : List Cond :=
  [Cond.deletedAtIsNull] ++ pushIf search Cond.nameOrDomainIlike

/-- WHERE-clause conditions built by `Query.deals`. -/
def dealsConditions (stage : Option String) (ownerId : Option String) : List Cond :=
  [Cond.deletedAtIsNull] ++ pushIf stage Cond.stageEq ++ pushIf ownerId Cond.ownerIdEq

/-- WHERE-clause conditions built by `Query.activities`. -/
def activitiesConditions (contactId companyId dealId ty : Option String) : List Cond :=
  [Cond.deletedAtIsNull] ++
    pushIf contactId Cond.contactIdEq ++
    pushIf companyId Cond.companyIdEq ++
    pushIf dealId Cond.dealIdEq ++
    pushIf ty Cond.typeEq

/-- WHERE-clause conditions built by `Query.campaigns`. -/
def campaignsConditions (status : Option String) : List Cond :=
  [Cond.deletedAtIsNull] ++ pushIf status Cond.statusEq

/-- WHERE-clause conditions built by `Query.voiceCalls`
(src/graphql/resolvers.ts lines 468-509): the `conditions` array starts
*empty* (no `deleted_at IS NULL` entry) and only a supplied `status` filter
adds a condition; with no filter the query has no `WHERE` clause at all. -/
def voiceCallsConditions (status : Option String) : List Cond :=
  [] ++ pushIf status Cond.statusEq

end Query

/- ============================================================
   Database access layer (src/utils/database.ts)
   ============================================================ -/

/-- A statement run on a pooled client inside `Database.transaction`'s
callback: either the tenant-context `SET LOCAL` issued by
`setOrganizationContext`, or a parameterized SQL text. -/
inductive Stmt where
  | setCtx (organizationId : String)
  | sql (text : String) (params : List String)
  deriving Repr, DecidableEq

/-- Outcome of `Database.transaction`: the value (or propagated error), the
*committed* database state visible to other sessions afterwards, and whether
the client was released back to the pool. -/
structure TxnResult (σ α : Type) where
  result : Except String α
  committed : σ
  released : Bool
  deriving Repr

namespace Database

/-- Run a list of statements sequentially over a tentative state, stopping at
the first error, with `exec` giving each statement's semantics. -/
def runStmts {σ : Type} (exec : Stmt → σ → Except String σ) :
    List Stmt → σ → Except String σ
  | [], s => .ok s
  | st :: rest, s =>
      match exec st s with
      | .error e => .error e
      | .ok s1 => runStmts exec rest s1

/-- `Database.transaction` (src/utils/database.ts lines 125-141): acquire a
client, `BEGIN`, run the callback's statements against a tentative state
seeded from the current committed state, `COMMIT` on success (publishing the
tentative state), `ROLLBACK` on any error (discarding every tentative
statement, the error then propagates), and release the client in a `finally`
in both cases. -/
def transaction {σ : Type} (exec : Stmt → σ → Except String σ)
    (stmts : List Stmt) (db : σ) : TxnResult σ Unit :=
  match runStmts exec stmts db with
  | .ok s1 => { result := .ok (), committed := s1, released := true }
  | .error e => { result := .error e, committed := db, released := true }

/-- `Database.queryWithContext` (src/utils/database.ts lines 159-168): a
transaction whose callback first issues the tenant-context `SET LOCAL`
(`setOrganizationContext`) and then the caller's query. -/
def queryWithContext {σ : Type} (exec : Stmt → σ → Except String σ)
    (organizationId : String) (text : String) (params : List String)
    (db : σ) : TxnResult σ Unit :=
  transaction exec [Stmt.setCtx organizationId, Stmt.sql text params] db

end Database

/- ============================================================
   Webhook signature verification (src/voice/webhook-handler.ts)
   ============================================================ -/

/-- Outcome of an Express middleware: pass the request on, or short-circuit
with an HTTP status and error message. -/
inductive MwResult where
  | next
  | reject (status : Nat) (msg : String)
  deriving Repr, DecidableEq

/-- `verifySignature` (webhook-handler lines 35-50): compute the HMAC-SHA256
hex digest of the payload under the secret and compare it with the header
value via `crypto.timingSafeEqual`.  The HMAC itself is library code, so it
enters the model as an oracle `hmac : secret → payload → digest`; a length
mismatch makes `timingSafeEqual` throw, which the `try/catch` turns into
`false`, so the whole function is the boolean equality test. -/
def verifySignature (hmac : String → String → String)
    (payload signature secret : String) : Bool :=
  signature == hmac secret payload

/-- `verifyWebhookMiddleware` (webhook-handler lines 55-83): with no
configured secret, log a warning and call `next()` unconditionally; with a
secret, reject a missing `X-Vapi-Signature` header with 401, reject a
signature that fails `verifySignature` with 401, and otherwise pass. -/
def verifyWebhookMiddleware (hmac : String → String → String)
    (webhookSecret : Option String) (signature : Option String)
    (payload : String) : MwResult :=
  match webhookSecret with
  | none => MwResult.next
  | some secret =>
      match signature with
      | none => MwResult.reject 401 "Signature required"
      | some sig =>
          if verifySignature hmac payload sig secret then MwResult.next
          else MwResult.reject 401 "Invalid signature"

/- ============================================================
   Voice subsystem data model (src/voice/call-manager.ts)
   ============================================================ -/

/-- A `nexuscrm.voice_calls` row, restricted to the columns the call manager
reads or writes.  SQL `NULL` is `Option.none`; timestamps are abstract
instants (`Nat`); JSONB analysis blobs are carried as their
`JSON.stringify` result. -/
structure CallRow where
  id : String
  externalCallId : Option String
  organizationId : String
  status : String
  answeredAt : Option Nat
  endedAt : Option Nat
  durationSeconds : Option Int
  transcript : Option String
  recordingUrl : Option String
  costUsd : Option Int
  costBreakdown : Option (List (String × Int))
  sentimentOverall : Option String
  keywordsDetected : Option (List String)
  topicsDiscussed : Option String
  objectionsRaised : Option String
  buyingSignals : Option String
  actionItems : Option String
  callOutcome : Option String
  dealScore : Option Int
  updatedAt : Nat
  deriving Repr, DecidableEq

/-- A `nexuscrm.activities` row, restricted to the columns the call manager
touches.  The correlation to a voice call lives in the JSON `metadata`
column; `metaVoiceCallId` models `metadata->>'voiceCallId'` and
`metaVapiCallId` models `metadata->>'vapiCallId'`. -/
structure ActivityRow where
  id : String
  metaVoiceCallId : Option String
  metaVapiCallId : Option String
  callStatus : Option String
  durationSeconds : Option Int
  transcript : Option String
  recordingUrl : Option String
  costUsd : Option Int
  completedAt : Option Nat
  sentiment : Option String
  sentimentScore : Option Int
  keywordsDetected : Option (List String)
  aiSummary : Option String
  actionItems : Option String
  objectionsRaised : Option String
  buyingSignals : Option String
  updatedAt : Nat
  deriving Repr, DecidableEq

/-- The persistent state the voice subsystem reads and writes. -/
structure VoiceDB where
  calls : List CallRow
  activities : List ActivityRow
  deriving Repr, DecidableEq

/-- The optional `data` argument of `CallManager.updateCallStatus`. -/
structure UpdateCallData where
  answeredAt : Option Nat
  endedAt : Option Nat
  durationSeconds : Option Int
  transcript : Option String
  recordingUrl : Option String
  cost : Option Int
  costBreakdown : Option (List (String × Int))
  deriving Repr, DecidableEq

/-- The `data` value `{}`: no optional field supplied. -/
def emptyUpdateData : UpdateCallData :=
  { answeredAt := none, endedAt := none, durationSeconds := none,
    transcript := none, recordingUrl := none, cost := none,
    costBreakdown := none }

/-- The structured result of `mageClient.analyze` over a transcript, as
consumed by `analyzeCallTranscript` (array/object members carried as their
`JSON.stringify` form). -/
structure CallAnalysis where
  sentiment : String
  sentimentScore : Int
  keywords : List String
  topicsDiscussed : String
  objectionsRaised : String
  buyingSignals : String
  actionItems : String
  callOutcome : String
  dealScore : Int
  summary : String
  deriving Repr, DecidableEq

/-- JavaScript `x || null` on an optional number: `0` is falsy and collapses
to `null`. -/
def jsOrNullInt : Option Int → Option Int
  | none => none
  | some v => if v == 0 then none else some v

/-- JavaScript `x || null` on an optional string: `''` is falsy and collapses
to `null`. -/
def jsOrNullStr : Option String → Option String
  | none => none
  | some v => if v == "" then none else some v

/-- JavaScript truthiness of an optional string (used by
`status === 'completed' && data.transcript`). -/
def jsTruthyStr : Option String → Bool
  | none => false
  | some s => s != ""

/-- SQL `COALESCE(new, old)`. -/
def coalesce {α : Type} : Option α → Option α → Option α
  | some v, _ => some v
  | none, old => old

/-- The `SET` clause of the `UPDATE nexuscrm.voice_calls` statement in
`updateCallStatus`: `status` is overwritten, each optional field goes through
`COALESCE($i, column)` with the JS `|| null` coercion applied to the bound
parameter, and `updated_at` is set to the current timestamp. -/
def applyCallUpdate (status : String) (data : UpdateCallData) (now : Nat)
    (c : CallRow) : CallRow :=
  { c with
    status := status
    answeredAt := coalesce data.answeredAt c.answeredAt
    endedAt := coalesce data.endedAt c.endedAt
    durationSeconds := coalesce (jsOrNullInt data.durationSeconds) c.durationSeconds
    transcript := coalesce (jsOrNullStr data.transcript) c.transcript
    recordingUrl := coalesce (jsOrNullStr data.recordingUrl) c.recordingUrl
    costUsd := coalesce (jsOrNullInt data.cost) c.costUsd
    costBreakdown := coalesce data.costBreakdown c.costBreakdown
    updatedAt := now }

/-- The `SET` clause of the `UPDATE nexuscrm.activities` statement in
`updateCallStatus` (matched via `metadata->>'vapiCallId'`). -/
def applyActivityUpdate (status : String) (data : UpdateCallData) (now : Nat)
    (a : ActivityRow) : ActivityRow :=
  { a with
    callStatus := some (if status == "completed" then "completed" else status)
    durationSeconds := coalesce (jsOrNullInt data.durationSeconds) a.durationSeconds
    transcript := coalesce (jsOrNullStr data.transcript) a.transcript
    recordingUrl := coalesce (jsOrNullStr data.recordingUrl) a.recordingUrl
    costUsd := coalesce (jsOrNullInt data.cost) a.costUsd
    completedAt := coalesce data.endedAt a.completedAt
    updatedAt := now }

/-- The `SET` clause of the voice-call analysis `UPDATE` in
`analyzeCallTranscript` (matched by `id`). -/
def applyCallAnalysis (a : CallAnalysis) (now : Nat) (c : CallRow) : CallRow :=
  { c with
    sentimentOverall := some a.sentiment
    keywordsDetected := some a.keywords
    topicsDiscussed := some a.topicsDiscussed
    objectionsRaised := some a.objectionsRaised
    buyingSignals := some a.buyingSignals
    actionItems := some a.actionItems
    callOutcome := some a.callOutcome
    dealScore := some a.dealScore
    updatedAt := now }

/-- The `SET` clause of the activity analysis `UPDATE` in
`analyzeCallTranscript` (matched via `metadata->>'voiceCallId'`). -/
def applyActivityAnalysis (an : CallAnalysis) (now : Nat)
    (x : ActivityRow) : ActivityRow :=
  { x with
    sentiment := some an.sentiment
    sentimentScore := some an.sentimentScore
    keywordsDetected := some an.keywords
    aiSummary := some an.summary
    actionItems := some an.actionItems
    objectionsRaised := some an.objectionsRaised
    buyingSignals := some an.buyingSignals
    updatedAt := now }

namespace CallManager

/-- `CallManager.analyzeCallTranscript` (call-manager lines 324-485): call
`mageClient.analyze` on the transcript — the remote call enters the model as
its outcome `mage` — then, on success, update the voice-call row by `id` and
the activity rows whose `metadata->>'voiceCallId'` equals the call id.  Any
error is swallowed (logged, not rethrown), leaving both tables unchanged. -/
def analyzeCallTranscript (mage : Except String CallAnalysis)
    (callId : String) (transcript : String) (now : Nat)
    (calls : List CallRow) (activities : List ActivityRow) :
    List CallRow × List ActivityRow :=
  let _ := transcript
  match mage with
  | .error _ => (calls, activities)
  | .ok an =>
      (calls.map (fun c => if c.id == callId then applyCallAnalysis an now c else c),
       activities.map (fun x =>
         if x.metaVoiceCallId == some callId then applyActivityAnalysis an now x
         else x))

/-- `CallManager.updateCallStatus` (call-manager lines 219-310): run the
COALESCE-based `UPDATE ... WHERE external_call_id = $9 RETURNING *` on
`voice_calls`; if it returned no row, warn and return early; otherwise, when
the new status is `completed` and `data.transcript` is truthy, run
`analyzeCallTranscript` on the returned row's `id`; finally update the
activities matched via `metadata->>'vapiCallId'`.  The boolean records
whether transcript analysis was triggered. -/
def updateCallStatus (mage : Except String CallAnalysis)
    (vapiCallId : String) (status : String) (data : UpdateCallData)
    (now : Nat) (db : VoiceDB) : VoiceDB × Bool :=
  let calls1 := db.calls.map (fun c =>
    if c.externalCallId == some vapiCallId then applyCallUpdate status data now c
    else c)
  let returned := calls1.filter (fun c => c.externalCallId == some vapiCallId)
  match returned with
  | [] => ({ db with calls := calls1 }, false)
  | call :: _ =>
      let doAnalyze := status == "completed" && jsTruthyStr data.transcript
      let next2 :=
        if doAnalyze then
          analyzeCallTranscript mage call.id (data.transcript.getD "") now calls1
            db.activities
        else (calls1, db.activities)
      let acts2 := next2.2.map (fun a =>
        if a.metaVapiCallId == some vapiCallId then applyActivityUpdate status data now a
        else a)
      ({ calls := next2.1, activities := acts2 }, doAnalyze)

/-- The webhook handlers invoke `callManager.getCall(event.callId)`, but the
`CallManager` class (src/voice/call-manager.ts) defines no `getCall` method —
only `VapiClient` has one.  In JavaScript the property access on the
singleton yields `undefined` and calling it throws a `TypeError`; the model
therefore always returns an error. -/
def getCall (callId : String) (db : VoiceDB) : Except String CallRow :=
  let _ := callId
  let _ := db
  .error "TypeError: callManager.getCall is not a function"

end CallManager

/- ============================================================
   WebSocket broadcast layer (src/websocket/manager.ts)
   ============================================================ -/

/-- One Socket.IO `to(room).emit(event, data)` performed by the broadcast
layer; the payload is abstracted to the status or transcript text carried. -/
structure Emit where
  room : String
  event : String
  payload : String
  deriving Repr, DecidableEq

/-- Observable outcome of one broadcast call: the emits performed and whether
the "not initialized" warning was logged.  The functions return `Except` so
that "never raises" is expressible (`getIO`, by contrast, throws). -/
structure BroadcastResult where
  emits : List Emit
  warned : Bool
  deriving Repr, DecidableEq

/-- `getIO` (websocket/manager.ts lines 32-37): throws when the module-level
`ioInstance` singleton is still `null`.  The singleton is modelled as
`Option Unit`. -/
def getIO (ioInstance : Option Unit) : Except String Unit :=
  match ioInstance with
  | none => .error "WebSocket manager not initialized. Call initializeWebSocketManager() first."
  | some io => .ok io

/-- `broadcastToOrganization` (websocket/manager.ts lines 42-63): if the
singleton is uninitialized, log a warning and return; otherwise emit to the
`org:<id>` room. -/
def broadcastToOrganization (ioInstance : Option Unit)
    (organizationId event payload : String) : Except String BroadcastResult :=
  match ioInstance with
  | none => .ok { emits := [], warned := true }
  | some _ =>
      .ok { emits := [{ room := "org:" ++ organizationId, event := event,
                        payload := payload }],
            warned := false }

/-- `broadcastToCall` (websocket/manager.ts lines 68-89): as above, for the
`call:<id>` room. -/
def broadcastToCall (ioInstance : Option Unit)
    (callId event payload : String) : Except String BroadcastResult :=
  match ioInstance with
  | none => .ok { emits := [], warned := true }
  | some _ =>
      .ok { emits := [{ room := "call:" ++ callId, event := event,
                        payload := payload }],
            warned := false }

/-- `broadcastTranscriptUpdate` (websocket/manager.ts lines 97-130): guard on
the singleton, then emit `call:transcript:update` to both the call room and
the organization room. -/
def broadcastTranscriptUpdate (ioInstance : Option Unit)
    (callId organizationId text : String) : Except String BroadcastResult :=
  match ioInstance with
  | none => .ok { emits := [], warned := true }
  | some io => do
      let r1 ← broadcastToCall (some io) callId "call:transcript:update" text
      let r2 ← broadcastToOrganization (some io) organizationId
        "call:transcript:update" text
      .ok { emits := r1.emits ++ r2.emits, warned := r1.warned || r2.warned }

/-- `broadcastCallStatus` (websocket/manager.ts lines 135-166): guard on the
singleton, then emit `call:status` to both the call room and the organization
room. -/
def broadcastCallStatus (ioInstance : Option Unit)
    (callId organizationId status : String) : Except String BroadcastResult :=
  match ioInstance with
  | none => .ok { emits := [], warned := true }
  | some io => do
      let r1 ← broadcastToCall (some io) callId "call:status" status
      let r2 ← broadcastToOrganization (some io) organizationId "call:status" status
      .ok { emits := r1.emits ++ r2.emits, warned := r1.warned || r2.warned }

/- ============================================================
   Vapi webhook handlers (src/voice/webhook-handler.ts)
   ============================================================ -/

/-- One entry of the incremental transcript array carried by a
`transcript.updated` event. -/
structure TranscriptMsg where
  role : String
  text : Option String
  content : Option String
  deriving Repr, DecidableEq

/-- The dynamic `data` member of a webhook event, restricted to the fields
the handlers read.  `transcript` is the string form used by `call.ended`;
`transcriptMsgs` is the array form used by `transcript.updated` (the source
field is untyped `any`, serving both roles). -/
structure EventData where
  durationSeconds : Option Int
  transcript : Option String
  transcriptMsgs : Option (List TranscriptMsg)
  recordingUrl : Option String
  cost : Option Int
  costBreakdown : Option (List (String × Int))
  reason : Option String
  functionName : Option String
  deriving Repr, DecidableEq

/-- `VapiWebhookEvent` of webhook-handler.ts: `{ type, callId, timestamp,
data }`, with the timestamp abstracted to the instant it denotes. -/
structure VapiWebhookEvent where
  type : String
  callId : String
  timestamp : Nat
  data : EventData
  deriving Repr, DecidableEq

/-- JavaScript `a || b` on an optional string (`''` is falsy). -/
def jsStrOr (a : Option String) (b : String) : String :=
  match a with
  | none => b
  | some s => if s == "" then b else s

/-- `handleCallStarted` (webhook-handler lines 139-155): set the call to
`ringing`, then look the call up via `callManager.getCall` and, when found,
broadcast status `initiated`.  The whole body is inside `try/catch`, so a
thrown `TypeError` from the missing `getCall` is logged and swallowed. -/
def handleCallStarted (mage : Except String CallAnalysis)
    (ioInstance : Option Unit) (event : VapiWebhookEvent) (now : Nat)
    (db : VoiceDB) : VoiceDB × List Emit :=
  let r := CallManager.updateCallStatus mage event.callId "ringing" emptyUpdateData now db
  match CallManager.getCall event.callId r.1 with
  | .error _ => (r.1, [])
  | .ok call =>
      match broadcastCallStatus ioInstance event.callId call.organizationId "initiated" with
      | .error _ => (r.1, [])
      | .ok b => (r.1, b.emits)

/-- `handleCallAnswered` (webhook-handler lines 160-178): set the call to
`in-progress` with `answeredAt`, then look up and broadcast `in-progress`. -/
def handleCallAnswered (mage : Except String CallAnalysis)
    (ioInstance : Option Unit) (event : VapiWebhookEvent) (now : Nat)
    (db : VoiceDB) : VoiceDB × List Emit :=
  let r := CallManager.updateCallStatus mage event.callId "in-progress"
    { emptyUpdateData with answeredAt := some event.timestamp } now db
  match CallManager.getCall event.callId r.1 with
  | .error _ => (r.1, [])
  | .ok call =>
      match broadcastCallStatus ioInstance event.callId call.organizationId "in-progress" with
      | .error _ => (r.1, [])
      | .ok b => (r.1, b.emits)

/-- `handleCallEnded` (webhook-handler lines 183-211): set the call to
`completed` with the event's end data, then look up and broadcast
`completed`. -/
def handleCallEnded (mage : Except String CallAnalysis)
    (ioInstance : Option Unit) (event : VapiWebhookEvent) (now : Nat)
    (db : VoiceDB) : VoiceDB × List Emit :=
  let r := CallManager.updateCallStatus mage event.callId "completed"
    { answeredAt := none
      endedAt := some event.timestamp
      durationSeconds := event.data.durationSeconds
      transcript := event.data.transcript
      recordingUrl := event.data.recordingUrl
      cost := event.data.cost
      costBreakdown := event.data.costBreakdown } now db
  match CallManager.getCall event.callId r.1 with
  | .error _ => (r.1, [])
  | .ok call =>
      match broadcastCallStatus ioInstance event.callId call.organizationId "completed" with
      | .error _ => (r.1, [])
      | .ok b => (r.1, b.emits)

/-- `handleCallFailed` (webhook-handler lines 216-240): map the failure
reason to `no-answer` or `failed`, update, then look up and broadcast
`failed`. -/
def handleCallFailed (mage : Except String CallAnalysis)
    (ioInstance : Option Unit) (event : VapiWebhookEvent) (now : Nat)
    (db : VoiceDB) : VoiceDB × List Emit :=
  let status := if event.data.reason == some "no-answer" then "no-answer" else "failed"
  let r := CallManager.updateCallStatus mage event.callId status
    { emptyUpdateData with endedAt := some event.timestamp } now db
  match CallManager.getCall event.callId r.1 with
  | .error _ => (r.1, [])
  | .ok call =>
      match broadcastCallStatus ioInstance event.callId call.organizationId "failed" with
      | .error _ => (r.1, [])
      | .ok b => (r.1, b.emits)

/-- `handleFunctionCalled` (webhook-handler lines 252-274): the body only
logs — function calls "are handled by the MageAgent or other services"; it
neither calls into the call manager nor broadcasts anything. -/
def handleFunctionCalled (event : VapiWebhookEvent) (db : VoiceDB) :
    VoiceDB × List Emit :=
  let _ := event
  (db, [])

/-- `handleTranscriptUpdated` (webhook-handler lines 282-328): look the call
up via `callManager.getCall` (returning early if not found), take the last
message of the incremental transcript array and broadcast it.  The missing
`getCall` method makes the lookup throw, caught by the handler's
`try/catch`. -/
def handleTranscriptUpdated (ioInstance : Option Unit)
    (event : VapiWebhookEvent) (db : VoiceDB) : VoiceDB × List Emit :=
  match CallManager.getCall event.callId db with
  | .error _ => (db, [])
  | .ok call =>
      match event.data.transcriptMsgs with
      | none => (db, [])
      | some msgs =>
          match msgs.getLast? with
          | none => (db, [])
          | some m =>
              let text := jsStrOr m.text (jsStrOr m.content "")
              match broadcastTranscriptUpdate ioInstance event.callId
                call.organizationId text with
              | .error _ => (db, [])
              | .ok b => (db, b.emits)

/-- The `switch (event.type)` dispatch of `handleVapiWebhook`
(webhook-handler lines 98-125); an unmatched type only logs. -/
def processWebhookEvent (mage : Except String CallAnalysis)
    (ioInstance : Option Unit) (event : VapiWebhookEvent) (now : Nat)
    (db : VoiceDB) : VoiceDB × List Emit :=
  if event.type == "call.started" then handleCallStarted mage ioInstance event now db
  else if event.type == "call.answered" then handleCallAnswered mage ioInstance event now db
  else if event.type == "call.ended" then handleCallEnded mage ioInstance event now db
  else if event.type == "call.failed" then handleCallFailed mage ioInstance event now db
  else if event.type == "function.called" then handleFunctionCalled event db
  else if event.type == "transcript.updated" then handleTranscriptUpdated ioInstance event db
  else (db, [])

/-- The HTTP response of the webhook endpoint. -/
structure WebhookResponse where
  status : Nat
  received : Bool
  errMsg : Option String
  deriving Repr, DecidableEq

/-- The response logic of `handleVapiWebhook` (webhook-handler lines
127-133): on normal completion respond `200 { received: true }`; in the
`catch` arm still respond `200` with the error message attached. -/
def webhookHttpResponse (processing : Except String (VoiceDB × List Emit)) :
    WebhookResponse :=
  match processing with
  | .ok _ => { status := 200, received := true, errMsg := none }
  | .error e => { status := 200, received := true, errMsg := some e }

/-- `handleVapiWebhook` (webhook-handler lines 88-134): dispatch the event
and build the HTTP response. -/
def handleVapiWebhook (mage : Except String CallAnalysis)
    (ioInstance : Option Unit) (event : VapiWebhookEvent) (now : Nat)
    (db : VoiceDB) : VoiceDB × List Emit × WebhookResponse :=
  let r := processWebhookEvent mage ioInstance event now db
  (r.1, r.2, webhookHttpResponse (.ok r))

/- ============================================================
   GraphQL cancelCall mutation (src/graphql/resolvers.ts lines 842-858)
   ============================================================ -/

/-- Observable outcome of `Mutation.cancelCall`: the new state, the returned
boolean (`rowCount > 0`), and the list of external call ids on which
`vapiClient.cancelCall` was invoked. -/
structure CancelCallResult where
  db : VoiceDB
  returned : Bool
  vapiCancelRequests : List String
  deriving Repr, DecidableEq

namespace Mutation

/-- `Mutation.cancelCall` (src/graphql/resolvers.ts lines 842-858): a single
`UPDATE nexuscrm.voice_calls SET status = 'cancelled', ended_at =
CURRENT_TIMESTAMP WHERE id = $1` through `queryWithContext`, returning
`rowCount > 0`.  The resolver performs no other action — in particular it
never invokes `vapiClient` (the platform-side cancel lives only in the
unused `CallManager.cancelCall`). -/
def cancelCall (organizationId callId : String) (now : Nat)
    (db : VoiceDB) : CancelCallResult :=
  let _ := organizationId
  let calls1 := db.calls.map (fun c =>
    if c.id == callId then { c with status := "cancelled", endedAt := some now }
    else c)
  let rowCount := (db.calls.filter (fun c => c.id == callId)).length
  { db := { db with calls := calls1 },
    returned := rowCount > 0,
    vapiCancelRequests := [] }

end Mutation

/- ============================================================
   Sample data used by counterexamples and witnesses
   ============================================================ -/

/-- A soft-deleted row (`deletedAt` set) that otherwise matches any
status filter the `voiceCalls` resolver can add. -/
def softDeletedRow : SqlRow :=
  { deletedAt := some 7, companyId := none, leadStatus := none, ownerId := none,
    leadScore := none, firstName := none, lastName := none, email := none,
    name := none, domain := none, stage := none, contactId := none,
    dealId := none, activityType := none, status := some "completed" }

/-- A live (non-deleted) row. -/
def liveRow : SqlRow :=
  { softDeletedRow with deletedAt := none }

/-- A voice call whose external (Vapi) call id is set. -/
def sampleCall : CallRow :=
  { id := "call-1", externalCallId := some "vapi-1", organizationId := "org-1",
    status := "initiated", answeredAt := none, endedAt := none,
    durationSeconds := none, transcript := some "old transcript",
    recordingUrl := none, costUsd := none, costBreakdown := none,
    sentimentOverall := none, keywordsDetected := none, topicsDiscussed := none,
    objectionsRaised := none, buyingSignals := none, actionItems := none,
    callOutcome := none, dealScore := none, updatedAt := 0 }

/-- The activity correlated with `sampleCall` through its metadata JSON. -/
def sampleActivity : ActivityRow :=
  { id := "act-1", metaVoiceCallId := some "call-1", metaVapiCallId := some "vapi-1",
    callStatus := some "initiated", durationSeconds := none, transcript := none,
    recordingUrl := none, costUsd := none, completedAt := none, sentiment := none,
    sentimentScore := none, keywordsDetected := none, aiSummary := none,
    actionItems := none, objectionsRaised := none, buyingSignals := none,
    updatedAt := 0 }

/-- A one-call database. -/
def sampleDB : VoiceDB := { calls := [sampleCall], activities := [sampleActivity] }

/-- An event `data` member with nothing set. -/
def emptyEventData : EventData :=
  { durationSeconds := none, transcript := none, transcriptMsgs := none,
    recordingUrl := none, cost := none, costBreakdown := none, reason := none,
    functionName := none }

/-- A `call.started` event for the known call `vapi-1`. -/
def callStartedEvent : VapiWebhookEvent :=
  { type := "call.started", callId := "vapi-1", timestamp := 5,
    data := emptyEventData }

/-- A `function.called` event for the known call `vapi-1`. -/
def functionCalledEvent : VapiWebhookEvent :=
  { type := "function.called", callId := "vapi-1", timestamp := 5,
    data := { emptyEventData with functionName := some "schedule_follow_up" } }

/-- A `call.ended` event for the known call `vapi-1` carrying a non-empty
transcript. -/
def callEndedEvent : VapiWebhookEvent :=
  { type := "call.ended", callId := "vapi-1", timestamp := 6,
    data := { emptyEventData with transcript := some "hello", durationSeconds := some 42 } }

/-- A sample analysis result returned by the reasoning service. -/
def sampleAnalysis : CallAnalysis :=
  { sentiment := "positive", sentimentScore := 1, keywords := ["demo"],
    topicsDiscussed := "[]", objectionsRaised := "[]", buyingSignals := "[]",
    actionItems := "[]", callOutcome := "qualified", dealScore := 80,
    summary := "good call" }

/- ============================================================
   Helper lemmas
   ============================================================ -/

/-- Filtering after mapping commutes with filtering first when the mapped
function preserves the predicate. -/
theorem filter_map_comm {α : Type} (f : α → α) (p : α → Bool)
    (hpf : ∀ a, p (f a) = p a) (l : List α) :
    (l.map f).filter p = (l.filter p).map f := by
  induction l with
  | nil => rfl
  | cons a tl ih =>
      by_cases h : p a = true <;>
        simp [List.filter_cons, hpf, h, ih]

/-- A condition list headed by `deleted_at IS NULL` only matches rows whose
`deletedAt` is unset. -/
theorem deletedAt_none_of_head (conds : List Cond) (r : SqlRow)
    (h : rowMatches (Cond.deletedAtIsNull :: conds) r = true) :
    r.deletedAt = none := by
  simp only [rowMatches, List.all_cons, Bool.and_eq_true, evalCond] at h
  exact Option.isNone_iff_eq_none.mp h.1

/- ============================================================
   C1 — soft-deletion filtering in the list resolvers
   ============================================================ -/

/-- C1 counterexample: the `voiceCalls` list resolver builds no
`deleted_at IS NULL` condition, so a row with `deletedAt` set satisfies its
`WHERE` clause — with no filter and with a matching `status` filter alike. -/
theorem voiceCalls_admits_soft_deleted_row :
    rowMatches (Query.voiceCallsConditions none) softDeletedRow = true ∧
    rowMatches (Query.voiceCallsConditions (some "completed")) softDeletedRow = true ∧
    softDeletedRow.deletedAt = some 7 := by
  refine ⟨rfl, ?_, rfl⟩
  decide

/-- C1 (amended): for every combination of their optional filter arguments,
the `contacts`, `companies`, `deals`, `activities` and `campaigns` list
resolvers build `WHERE` clauses that only match rows whose `deletedAt` is
unset; the `voiceCalls` resolver is the exception and applies no such
condition. -/
theorem list_resolvers_exclude_soft_deleted
    (filter : Option ContactFilter)
    (search stage ownerId contactId companyId dealId ty status : Option String)
    (r : SqlRow) :
    (rowMatches (Query.contactsConditions filter) r = true → r.deletedAt = none) ∧
    (rowMatches (Query.companiesConditions search) r = true → r.deletedAt = none) ∧
    (rowMatches (Query.dealsConditions stage ownerId) r = true → r.deletedAt = none) ∧
    (rowMatches (Query.activitiesConditions contactId companyId dealId ty) r = true →
      r.deletedAt = none) ∧
    (rowMatches (Query.campaignsConditions status) r = true → r.deletedAt = none) := by
  refine ⟨fun h => ?_, fun h => ?_, fun h => ?_, fun h => ?_, fun h => ?_⟩ <;>
    exact deletedAt_none_of_head _ r h

/-- C1 witness: the amended theorem applied to the contacts resolver with no
filter and a live row. -/
theorem list_resolvers_exclude_soft_deleted_witness :
    rowMatches (Query.contactsConditions none) liveRow = true ∧
    liveRow.deletedAt = none := by
  refine ⟨by decide, ?_⟩
  exact (list_resolvers_exclude_soft_deleted none none none none none none none
    none none liveRow).1 (by decide)

/- ============================================================
   C3 — queryWithContext rolls back on error
   ============================================================ -/

/-- C3: for every statement semantics, organization id, SQL text, parameter
list and starting state, `queryWithContext` always releases the client, and
whenever any statement of its transaction (the tenant-context `SET` or the
query) errors, the committed state is exactly the starting state — every
statement of the transaction is rolled back before the error propagates. -/
theorem queryWithContext_rolls_back_on_error {σ : Type}
    (exec : Stmt → σ → Except String σ)
    (organizationId text : String) (params : List String) (db : σ) :
    (Database.queryWithContext exec organizationId text params db).released = true ∧
    ∀ e, (Database.queryWithContext exec organizationId text params db).result
        = Except.error e →
      (Database.queryWithContext exec organizationId text params db).committed = db := by
  unfold Database.queryWithContext Database.transaction
  cases Database.runStmts exec [Stmt.setCtx organizationId, Stmt.sql text params] db with
  | ok s => exact ⟨rfl, fun e he => Except.noConfusion he⟩
  | error e => exact ⟨rfl, fun _ _ => rfl⟩

/-- C3 witness: a semantics where the tenant-context `SET` succeeds (and
mutates the tentative state) but the query fails; the theorem yields that the
committed state is the original one — the `SET` was rolled back too — and the
client was released. -/
theorem queryWithContext_rolls_back_on_error_witness :
    (Database.queryWithContext
        (fun st s => match st with
          | Stmt.setCtx _ => Except.ok (s + 1)
          | Stmt.sql _ _ => Except.error "boom")
        "org-1" "SELECT 1" [] (0 : Nat)).committed = 0 ∧
    (Database.queryWithContext
        (fun st s => match st with
          | Stmt.setCtx _ => Except.ok (s + 1)
          | Stmt.sql _ _ => Except.error "boom")
        "org-1" "SELECT 1" [] (0 : Nat)).released = true := by
  refine ⟨?_, ?_⟩
  · exact (queryWithContext_rolls_back_on_error _ "org-1" "SELECT 1" [] 0).2 "boom" rfl
  · exact (queryWithContext_rolls_back_on_error _ "org-1" "SELECT 1" [] 0).1

/- ============================================================
   C4 — webhook signature verification
   ============================================================ -/

/-- C4: for every HMAC oracle, configured secret and payload: a request with
no `X-Vapi-Signature` header is rejected with 401; a request whose signature
differs from the HMAC of its (possibly tampered) body is rejected with 401;
and with no secret configured, every request — any signature, any body —
passes the middleware. -/
theorem verifyWebhookMiddleware_spec
    (hmac : String → String → String) (secret payload sig : String) :
    (verifyWebhookMiddleware hmac (some secret) none payload
        = MwResult.reject 401 "Signature required") ∧
    (sig ≠ hmac secret payload →
      verifyWebhookMiddleware hmac (some secret) (some sig) payload
        = MwResult.reject 401 "Invalid signature") ∧
    (∀ signature : Option String,
      verifyWebhookMiddleware hmac none signature payload = MwResult.next) := by
  refine ⟨rfl, fun h => ?_, fun _ => rfl⟩
  simp [verifyWebhookMiddleware, verifySignature, h]

/-- C4 witness: a concrete HMAC oracle, secret `k` and payload `x` with the
non-matching signature `bad`. -/
theorem verifyWebhookMiddleware_spec_witness :
    (verifyWebhookMiddleware (fun s p => s ++ p) (some "k") none "x"
        = MwResult.reject 401 "Signature required") ∧
    (verifyWebhookMiddleware (fun s p => s ++ p) (some "k") (some "bad") "x"
        = MwResult.reject 401 "Invalid signature") ∧
    (verifyWebhookMiddleware (fun s p => s ++ p) none (some "bad") "x"
        = MwResult.next) := by
  obtain ⟨h1, h2, h3⟩ := verifyWebhookMiddleware_spec (fun s p => s ++ p) "k" "x" "bad"
  exact ⟨h1, h2 (by decide), h3 (some "bad")⟩

/- ============================================================
   C6 — webhook endpoint always answers 200
   ============================================================ -/

/-- C6: the webhook endpoint's response logic yields HTTP 200 for every
processing outcome — including a thrown error, whose message is attached to
the body but never to the status — and the full `handleVapiWebhook` pipeline
answers 200 on every event and state. -/
theorem webhook_always_responds_200
    (processing : Except String (VoiceDB × List Emit))
    (mage : Except String CallAnalysis) (ioInstance : Option Unit)
    (event : VapiWebhookEvent) (now : Nat) (db : VoiceDB) :
    (webhookHttpResponse processing).status = 200 ∧
    (webhookHttpResponse processing).received = true ∧
    (handleVapiWebhook mage ioInstance event now db).2.2.status = 200 := by
  refine ⟨?_, ?_, rfl⟩ <;> cases processing <;> rfl

/- ============================================================
   C9 — broadcasting before initialization is a warning no-op
   ============================================================ -/

/-- C9: with the WebSocket singleton uninitialized, each of the four
broadcast functions returns normally (no raised error), performs no emit, and
logs the warning — for every organization id, call id, event name and
payload. -/
theorem broadcast_before_init_is_noop
    (organizationId callId event payload status text : String) :
    broadcastToOrganization none organizationId event payload
      = Except.ok { emits := [], warned := true } ∧
    broadcastToCall none callId event payload
      = Except.ok { emits := [], warned := true } ∧
    broadcastTranscriptUpdate none callId organizationId text
      = Except.ok { emits := [], warned := true } ∧
    broadcastCallStatus none callId organizationId status
      = Except.ok { emits := [], warned := true } :=
  ⟨rfl, rfl, rfl, rfl⟩

/- ============================================================
   C10 — updateCallStatus on an unknown external call id
   ============================================================ -/

/-- C10: when no voice-call row carries the given external call id,
`updateCallStatus` returns normally with the state unchanged — the zero-row
`UPDATE` leaves `voice_calls` as it was, and the early return skips both the
transcript analysis and the activities update. -/
theorem updateCallStatus_unknown_call_noop
    (mage : Except String CallAnalysis) (vapiCallId status : String)
    (data : UpdateCallData) (now : Nat) (db : VoiceDB)
    (h : ∀ c ∈ db.calls, c.externalCallId ≠ some vapiCallId) :
    CallManager.updateCallStatus mage vapiCallId status data now db = (db, false) := by
  have hmap : db.calls.map (fun c =>
      if c.externalCallId == some vapiCallId then applyCallUpdate status data now c
      else c) = db.calls := by
    conv_rhs => rw [← List.map_id db.calls]
    apply List.map_congr_left
    intro c hc
    simp [h c hc]
  have hfil : db.calls.filter (fun c => c.externalCallId == some vapiCallId) = [] := by
    rw [List.filter_eq_nil_iff]
    intro c hc
    simp [h c hc]
  simp only [CallManager.updateCallStatus, hmap, hfil]

/-- C10 witness: a database whose only call has external id `vapi-1`, updated
under the unknown external id `vapi-unknown`. -/
theorem updateCallStatus_unknown_call_noop_witness :
    CallManager.updateCallStatus (Except.ok sampleAnalysis) "vapi-unknown"
      "completed" emptyUpdateData 9 sampleDB = (sampleDB, false) := by
  apply updateCallStatus_unknown_call_noop
  intro c hc
  simp only [sampleDB, List.mem_singleton] at hc
  subst hc
  decide

/- ============================================================
   C7 — the cancelCall mutation and the voice platform
   ============================================================ -/

/-- C7 counterexample: a call with an external platform call id exists, yet
the `cancelCall` mutation issues no platform-side cancel request at all —
`vapiClient` is never invoked by the resolver. -/
theorem cancelCall_counterexample :
    sampleCall.externalCallId = some "vapi-1" ∧
    (Mutation.cancelCall "org-1" "call-1" 9 sampleDB).vapiCancelRequests = [] :=
  ⟨rfl, rfl⟩

/-- C7 (amended): for every organization id, call id, time and state, the
GraphQL `cancelCall` mutation marks the local voice-call row cancelled
(status `cancelled`, `ended_at` set) and leaves every other row unchanged,
but never invokes the voice platform — even when an external call id exists;
the platform-side cancel lives only in the unused `CallManager.cancelCall`. -/
theorem cancelCall_marks_local_row_only
    (organizationId callId : String) (now : Nat) (db : VoiceDB) :
    (Mutation.cancelCall organizationId callId now db).vapiCancelRequests = [] ∧
    (∀ c ∈ db.calls, c.id = callId →
      { c with status := "cancelled", endedAt := some now }
        ∈ (Mutation.cancelCall organizationId callId now db).db.calls) ∧
    (∀ c ∈ db.calls, c.id ≠ callId →
      c ∈ (Mutation.cancelCall organizationId callId now db).db.calls) := by
  refine ⟨rfl, fun c hc hid => ?_, fun c hc hid => ?_⟩
  · have : { c with status := "cancelled", endedAt := some now }
        = (fun c : CallRow =>
            if c.id == callId then { c with status := "cancelled", endedAt := some now }
            else c) c := by
      simp [hid]
    rw [this]
    exact List.mem_map_of_mem _ hc
  · have : c = (fun c : CallRow =>
        if c.id == callId then { c with status := "cancelled", endedAt := some now }
        else c) c := by
      simp [hid]
    rw [this]
    exact List.mem_map_of_mem _ hc

/-- C7 witness: the amended theorem applied to the one-call database; the
known call is marked cancelled and no platform request is issued. -/
theorem cancelCall_marks_local_row_only_witness :
    (Mutation.cancelCall "org-1" "call-1" 9 sampleDB).vapiCancelRequests = [] ∧
    { sampleCall with status := "cancelled", endedAt := some 9 }
      ∈ (Mutation.cancelCall "org-1" "call-1" 9 sampleDB).db.calls := by
  obtain ⟨h1, h2, _⟩ := cancelCall_marks_local_row_only "org-1" "call-1" 9 sampleDB
  exact ⟨h1, h2 sampleCall (by simp [sampleDB]) rfl⟩

/- ============================================================
   C2 — webhook handlers, the call manager, and re-broadcasting
   ============================================================ -/

/-- C2: evaluation of the webhook pipeline at a `call.started` event for the
known call `vapi-1`, with the WebSocket layer initialized.  The call manager
update does run (the row moves to `ringing`), but no WebSocket emit is ever
performed: the broadcast path first calls `callManager.getCall`, a method the
`CallManager` class does not define, so it throws and the handler's
`try/catch` swallows the error.  A `function.called` event neither touches
the call manager nor broadcasts — its handler only logs. -/
theorem webhook_handlers_never_broadcast :
    ((handleVapiWebhook (Except.error "unused") (some ()) callStartedEvent 5
        sampleDB).1.calls.map CallRow.status = ["ringing"]) ∧
    ((handleVapiWebhook (Except.error "unused") (some ()) callStartedEvent 5
        sampleDB).2.1 = []) ∧
    (handleVapiWebhook (Except.error "unused") (some ()) functionCalledEvent 5
        sampleDB
      = (sampleDB, [], { status := 200, received := true, errMsg := none })) := by
  refine ⟨?_, ?_, ?_⟩ <;> decide

/- ============================================================
   C5 — COALESCE semantics of updateCallStatus
   ============================================================ -/

/-- Whatever branches `updateCallStatus` takes after its first `UPDATE`, its
resulting `voice_calls` table is the COALESCE-updated table composed with a
post-map (identity, or the transcript-analysis update) that never touches the
status column, the seven optional data columns, the row id or the external
call id. -/
theorem updateCallStatus_calls_shape
    (mage : Except String CallAnalysis) (vapiCallId status : String)
    (data : UpdateCallData) (now : Nat) (db : VoiceDB) :
    ∃ g : CallRow → CallRow,
      (CallManager.updateCallStatus mage vapiCallId status data now db).1.calls
        = (db.calls.map (fun c =>
            if c.externalCallId == some vapiCallId then
              applyCallUpdate status data now c
            else c)).map g ∧
      ∀ c, (g c).status = c.status ∧ (g c).answeredAt = c.answeredAt ∧
        (g c).endedAt = c.endedAt ∧ (g c).durationSeconds = c.durationSeconds ∧
        (g c).transcript = c.transcript ∧ (g c).recordingUrl = c.recordingUrl ∧
        (g c).costUsd = c.costUsd ∧ (g c).costBreakdown = c.costBreakdown ∧
        (g c).id = c.id ∧ (g c).externalCallId = c.externalCallId := by
  cases hret : (db.calls.map (fun c =>
      if c.externalCallId == some vapiCallId then applyCallUpdate status data now c
      else c)).filter (fun c => c.externalCallId == some vapiCallId) with
  | nil =>
      refine ⟨id, ?_, fun c => ⟨rfl, rfl, rfl, rfl, rfl, rfl, rfl, rfl, rfl, rfl⟩⟩
      simp only [CallManager.updateCallStatus, hret, List.map_id]
  | cons call rest =>
      by_cases hda : (status == "completed" && jsTruthyStr data.transcript) = true
      · cases mage with
        | error e =>
            refine ⟨id, ?_, fun c => ⟨rfl, rfl, rfl, rfl, rfl, rfl, rfl, rfl, rfl, rfl⟩⟩
            simp only [CallManager.updateCallStatus, hret, hda,
              CallManager.analyzeCallTranscript, if_true, List.map_id]
        | ok an =>
            refine ⟨fun c => if c.id == call.id then applyCallAnalysis an now c else c,
              ?_, fun c => ?_⟩
            · simp only [CallManager.updateCallStatus, hret, hda,
                CallManager.analyzeCallTranscript, if_true]
            · by_cases h : (c.id == call.id) = true <;>
                simp [h, applyCallAnalysis]
      · refine ⟨id, ?_, fun c => ⟨rfl, rfl, rfl, rfl, rfl, rfl, rfl, rfl, rfl, rfl⟩⟩
        simp only [CallManager.updateCallStatus, hret, hda, if_false, List.map_id]
        simp [hda]

/-- C5: for every voice-call row matching the external call id and every
subset of supplied optional fields, the row `updateCallStatus` produces keeps
each unsupplied field at its previously stored value (COALESCE), sets the
status column, and changes no other column of the `UPDATE`'s SET list. -/
theorem updateCallStatus_coalesce_frame
    (mage : Except String CallAnalysis) (vapiCallId status : String)
    (data : UpdateCallData) (now : Nat) (db : VoiceDB)
    (c : CallRow) (hc : c ∈ db.calls) (hm : c.externalCallId = some vapiCallId) :
    ∃ c' ∈ (CallManager.updateCallStatus mage vapiCallId status data now db).1.calls,
      c'.status = status ∧
      (data.answeredAt = none → c'.answeredAt = c.answeredAt) ∧
      (data.endedAt = none → c'.endedAt = c.endedAt) ∧
      (data.durationSeconds = none → c'.durationSeconds = c.durationSeconds) ∧
      (data.transcript = none → c'.transcript = c.transcript) ∧
      (data.recordingUrl = none → c'.recordingUrl = c.recordingUrl) ∧
      (data.cost = none → c'.costUsd = c.costUsd) ∧
      (data.costBreakdown = none → c'.costBreakdown = c.costBreakdown) := by
  obtain ⟨g, hshape, hpres⟩ :=
    updateCallStatus_calls_shape mage vapiCallId status data now db
  refine ⟨g (applyCallUpdate status data now c), ?_, ?_⟩
  · rw [hshape]
    apply List.mem_map_of_mem
    have heq : applyCallUpdate status data now c
        = (fun c : CallRow =>
            if c.externalCallId == some vapiCallId then
              applyCallUpdate status data now c
            else c) c := by
      simp [hm]
    rw [heq]
    exact List.mem_map_of_mem _ hc
  · obtain ⟨h1, h2, h3, h4, h5, h6, h7, h8, _, _⟩ :=
      hpres (applyCallUpdate status data now c)
    refine ⟨h1.trans rfl, fun hn => ?_, fun hn => ?_, fun hn => ?_, fun hn => ?_,
      fun hn => ?_, fun hn => ?_, fun hn => ?_⟩
    · rw [h2]; simp [applyCallUpdate, coalesce, hn]
    · rw [h3]; simp [applyCallUpdate, coalesce, hn]
    · rw [h4]; simp [applyCallUpdate, coalesce, jsOrNullInt, hn]
    · rw [h5]; simp [applyCallUpdate, coalesce, jsOrNullStr, hn]
    · rw [h6]; simp [applyCallUpdate, coalesce, jsOrNullStr, hn]
    · rw [h7]; simp [applyCallUpdate, coalesce, jsOrNullInt, hn]
    · rw [h8]; simp [applyCallUpdate, coalesce, hn]

/-- C5 witness: updating the known call with only a status leaves its stored
transcript in place. -/
theorem updateCallStatus_coalesce_frame_witness :
    ∃ c' ∈ (CallManager.updateCallStatus (Except.error "") "vapi-1" "in-progress"
        emptyUpdateData 9 sampleDB).1.calls,
      c'.status = "in-progress" ∧ c'.transcript = sampleCall.transcript := by
  obtain ⟨c', hmem, h1, _, _, _, h5, _, _, _⟩ :=
    updateCallStatus_coalesce_frame (Except.error "") "vapi-1" "in-progress"
      emptyUpdateData 9 sampleDB sampleCall (by simp [sampleDB]) rfl
  exact ⟨c', hmem, h1, h5 rfl⟩

/- ============================================================
   C8 — call.ended, transcript analysis, and the two writes
   ============================================================ -/

/-- C8: a `call.ended` event with a non-empty transcript for a known call
(`u` names the status update it performs via `handleCallEnded`) triggers
transcript analysis: the analysis result is written to the voice-call rows
with the returned call's `id` and to the activity rows correlated through
`metadata->>'voiceCallId'`; and for any event whose transcript is absent or
empty, no analysis is triggered. -/
theorem callEnded_analysis_spec
    (an : CallAnalysis) (ioInstance : Option Unit) (event : VapiWebhookEvent)
    (now : Nat) (db : VoiceDB) (t : String)
    (ht : event.data.transcript = some t) (htne : t ≠ "")
    (c0 : CallRow) (rest : List CallRow)
    (hfilter : db.calls.filter (fun c => c.externalCallId == some event.callId)
      = c0 :: rest)
    (u : VoiceDB × Bool)
    (hu : u = CallManager.updateCallStatus (Except.ok an) event.callId "completed"
      { answeredAt := none, endedAt := some event.timestamp,
        durationSeconds := event.data.durationSeconds,
        transcript := event.data.transcript,
        recordingUrl := event.data.recordingUrl,
        cost := event.data.cost,
        costBreakdown := event.data.costBreakdown } now db) :
    u.2 = true ∧
    (handleCallEnded (Except.ok an) ioInstance event now db).1 = u.1 ∧
    (∀ c' ∈ u.1.calls, c'.id = c0.id →
      c'.sentimentOverall = some an.sentiment ∧
      c'.callOutcome = some an.callOutcome ∧
      c'.dealScore = some an.dealScore) ∧
    (∀ a ∈ db.activities, a.metaVoiceCallId = some c0.id →
      ∃ a' ∈ u.1.activities,
        a'.sentiment = some an.sentiment ∧
        a'.sentimentScore = some an.sentimentScore ∧
        a'.aiSummary = some an.summary) ∧
    (∀ (mage2 : Except String CallAnalysis) (db2 : VoiceDB) (d2 : UpdateCallData),
      d2.transcript = none ∨ d2.transcript = some "" →
      (CallManager.updateCallStatus mage2 event.callId "completed" d2 now db2).2
        = false) := by
  subst hu
  set d : UpdateCallData :=
    { answeredAt := none, endedAt := some event.timestamp,
      durationSeconds := event.data.durationSeconds,
      transcript := event.data.transcript,
      recordingUrl := event.data.recordingUrl,
      cost := event.data.cost,
      costBreakdown := event.data.costBreakdown } with hd
  have hdt : d.transcript = some t := ht
  have hpf : ∀ c : CallRow,
      ((if c.externalCallId == some event.callId then
          applyCallUpdate "completed" d now c
        else c).externalCallId == some event.callId)
        = (c.externalCallId == some event.callId) := by
    intro c
    by_cases h : (c.externalCallId == some event.callId) = true <;>
      simp [h, applyCallUpdate]
  have hp0 : (c0.externalCallId == some event.callId) = true := by
    have hmem : c0 ∈ db.calls.filter
        (fun c => c.externalCallId == some event.callId) := by
      rw [hfilter]; exact List.mem_cons_self _ _
    exact (List.mem_filter.mp hmem).2
  have hret : (db.calls.map (fun c =>
        if c.externalCallId == some event.callId then
          applyCallUpdate "completed" d now c
        else c)).filter (fun c => c.externalCallId == some event.callId)
      = applyCallUpdate "completed" d now c0
          :: rest.map (fun c =>
            if c.externalCallId == some event.callId then
              applyCallUpdate "completed" d now c
            else c) := by
    rw [filter_map_comm _ _ hpf, hfilter, List.map_cons, if_pos hp0]
  have hda : (("completed" == "completed") && jsTruthyStr d.transcript) = true := by
    simp [jsTruthyStr, ht, htne]
  have hcalls : (CallManager.updateCallStatus (Except.ok an) event.callId
        "completed" d now db).1.calls
      = (db.calls.map (fun c =>
          if c.externalCallId == some event.callId then
            applyCallUpdate "completed" d now c
          else c)).map (fun c =>
            if c.id == (applyCallUpdate "completed" d now c0).id then
              applyCallAnalysis an now c
            else c) := by
    simp only [CallManager.updateCallStatus, hret, hda,
      CallManager.analyzeCallTranscript, if_true]
  have hacts : (CallManager.updateCallStatus (Except.ok an) event.callId
        "completed" d now db).1.activities
      = (db.activities.map (fun a =>
          if a.metaVoiceCallId == some (applyCallUpdate "completed" d now c0).id then
            applyActivityAnalysis an now a
          else a)).map (fun a =>
            if a.metaVapiCallId == some event.callId then
              applyActivityUpdate "completed" d now a
            else a) := by
    simp only [CallManager.updateCallStatus, hret, hda,
      CallManager.analyzeCallTranscript, if_true]
  have hid0 : (applyCallUpdate "completed" d now c0).id = c0.id := rfl
  refine ⟨?_, ?_, ?_, ?_, ?_⟩
  · simp only [CallManager.updateCallStatus, hret, hda]
  · rfl
  · intro c' hmem hcid
    rw [hcalls] at hmem
    obtain ⟨x, hx, hgx⟩ := List.mem_map.mp hmem
    by_cases hxid : (x.id == (applyCallUpdate "completed" d now c0).id) = true
    · rw [← hgx]
      simp [hxid, applyCallAnalysis]
    · exfalso
      rw [← hgx] at hcid
      rw [hid0] at hxid
      simp only [hid0, if_neg hxid] at hcid
      exact hxid (by simp [hcid])
  · intro a ha hmid
    refine ⟨(fun a : ActivityRow =>
        if a.metaVapiCallId == some event.callId then
          applyActivityUpdate "completed" d now a
        else a) ((fun a : ActivityRow =>
        if a.metaVoiceCallId == some (applyCallUpdate "completed" d now c0).id then
          applyActivityAnalysis an now a
        else a) a), ?_, ?_⟩
    · rw [hacts]
      exact List.mem_map_of_mem _ (List.mem_map_of_mem _ ha)
    · have h1 : (a.metaVoiceCallId == some (applyCallUpdate "completed" d now c0).id)
          = true := by
        rw [hid0]
        simp [hmid]
      dsimp only
      rw [if_pos h1]
      refine ⟨?_, ?_, ?_⟩ <;> split <;> rfl
  · intro mage2 db2 d2 hd2
    have hjt : jsTruthyStr d2.transcript = false := by
      rcases hd2 with h | h <;> simp [h, jsTruthyStr]
    simp only [CallManager.updateCallStatus]
    cases hE : (db2.calls.map (fun c =>
        if c.externalCallId == some event.callId then
          applyCallUpdate "completed" d2 now c
        else c)).filter (fun c => c.externalCallId == some event.callId) with
    | nil => simp
    | cons call rest2 => simp [hjt]

/-- C8 witness: the `call.ended` event with transcript `hello` for the known
call triggers analysis and writes the analysis results to the correlated
activity. -/
theorem callEnded_analysis_spec_witness :
    (CallManager.updateCallStatus (Except.ok sampleAnalysis) callEndedEvent.callId
        "completed"
        { answeredAt := none, endedAt := some callEndedEvent.timestamp,
          durationSeconds := callEndedEvent.data.durationSeconds,
          transcript := callEndedEvent.data.transcript,
          recordingUrl := callEndedEvent.data.recordingUrl,
          cost := callEndedEvent.data.cost,
          costBreakdown := callEndedEvent.data.costBreakdown } 6 sampleDB).2 = true ∧
    ∃ a' ∈ (CallManager.updateCallStatus (Except.ok sampleAnalysis)
        callEndedEvent.callId "completed"
        { answeredAt := none, endedAt := some callEndedEvent.timestamp,
          durationSeconds := callEndedEvent.data.durationSeconds,
          transcript := callEndedEvent.data.transcript,
          recordingUrl := callEndedEvent.data.recordingUrl,
          cost := callEndedEvent.data.cost,
          costBreakdown := callEndedEvent.data.costBreakdown } 6 sampleDB).1.activities,
      a'.sentiment = some sampleAnalysis.sentiment ∧
      a'.sentimentScore = some sampleAnalysis.sentimentScore ∧
      a'.aiSummary = some sampleAnalysis.summary := by
  obtain ⟨h1, _, _, h4, _⟩ :=
    callEnded_analysis_spec sampleAnalysis none callEndedEvent 6 sampleDB "hello"
      rfl (by decide) sampleCall [] (by decide) _ rfl
  exact ⟨h1, h4 sampleActivity (by simp [sampleDB]) rfl⟩
